import Mathlib

/-!
# Verification of the xirsys signaling client (`xirsysapp`)

Shallow embedding of the two Python sources
`app/public/xirsysapp/cli_with_video.py` (the full video variant) and
`app/public/xirsysapp/websocket_timeout_test.py` (the minimal variant).

The stateful Python object `PeerConnection` is modelled by explicit state
passing over a `Client` record; Python exceptions are modelled with
`Except`, where an error carries the mutated-so-far client (Python object
mutations performed before a raise persist).  External collaborators
(the broker REST endpoints, `websockets`, `subprocess`, the aiortc media
engine) are modelled at their interface boundary: broker/process outcomes
are parameters, and engine objects (`RTCPeerConnection`, recorder) are
records recording the operations the client performed on them.
-/

namespace Xirsys

/-- `PeerConnection.PcState` from `cli_with_video.py` (same enumeration in
the minimal variant, up to member ordering). -/
inductive PcState where
  | ICE_NOT_READY
  | ICE_READY
  | ICING
  | CONNECTING
  | CONNECTED
  | DISCONNECTED
  | TERMINATED
deriving DecidableEq, Repr

/-- Python exception classes that the client code can raise. -/
inductive PyErr where
  | keyError
  | attributeError
  | typeError
  | indexError
  | brokerError
  | connectError
deriving DecidableEq, Repr

/-- A broker-returned ice server entry (`ice_servers['iceServers']` element):
a single `url` plus optional credentials. -/
structure IceServer where
  url : String
  username : Option String := none
  credential : Option String := none
deriving DecidableEq, Repr

/-- The aiortc `RTCIceServer` built by `generate_rtc_configuration`:
the single `url` value is lifted into a `urls` list. -/
structure RTCIceServerM where
  urls : List String
  username : Option String := none
  credential : Option String := none
deriving DecidableEq, Repr

/-- `PeerConnection.generate_rtc_configuration`: copies each entry's `url`
into a one-element `urls` list and drops the `url` key. -/
def generate_rtc_configuration (ice_servers : List IceServer) : List RTCIceServerM :=
  ice_servers.map fun s =>
    { urls := [s.url], username := s.username, credential := s.credential }

/-- An aiortc ice candidate, as the client mutates it.  `sdpFragment` is the
text handed to `candidate_from_sdp`.  The source assigns the attribute
`spdMLineIndex` (sic, lines 268-269 of `cli_with_video.py`); the correctly
spelled `sdpMLineIndex` attribute is carried separately to record that the
source never assigns it. -/
structure RTCIceCandidateM where
  sdpFragment : String
  sdpMid : Option String := none
  sdpMLineIndex : Option Nat := none
  spdMLineIndex : Option Nat := none
deriving DecidableEq, Repr

/-- aiortc `candidate_from_sdp` (external): parses the SDP fragment; the
fragment carries no `sdpMid`/`sdpMLineIndex`, so those stay unset. -/
def candidate_from_sdp (frag : String) : RTCIceCandidateM :=
  { sdpFragment := frag }

/-- An SDP session description (`RTCSessionDescription`). -/
structure SessionDesc where
  sdp : String
  type : String
deriving DecidableEq, Repr

/-- The video track attached by `make_answer`: a `MediaPlayer` video if the
file opens, else the synthesized `FlagVideoStreamTrack`. -/
inductive TrackSrc where
  | filePlayer
  | flagPattern
deriving DecidableEq, Repr

/-- The aiortc `RTCPeerConnection`, recorded as the sequence of operations
the client performed on it. -/
structure RTCPeerConnectionM where
  config : List RTCIceServerM
  remoteDescs : List SessionDesc := []
  localDescs : List SessionDesc := []
  tracks : List TrackSrc := []
  candidates : List RTCIceCandidateM := []
  closed : Bool := false
deriving DecidableEq, Repr

/-- The `MediaBlackhole` recorder created in `doIce`. -/
structure RecorderM where
  started : Bool := false
  stopped : Bool := false
deriving DecidableEq, Repr

/-- The `PeerConnection` object of `cli_with_video.py`.  `pc` and `recorder`
are `Option` because `__init__` does not create the `_pc`/`_recorder`
attributes; they first appear inside `doIce`.  `pcGen` counts how many
`RTCPeerConnection` objects have been constructed, to express session
identity. -/
structure Client where
  user : String
  channel : String
  keepAlive : Nat
  state : PcState
  pc : Option RTCPeerConnectionM := none
  recorder : Option RecorderM := none
  senderSet : Bool := false
  caller : Option String := none
  pcGen : Nat := 0
deriving DecidableEq, Repr

/-- `PeerConnection.__init__`: only the scalar fields are assigned;
`_pc` and `_recorder` do not exist yet. -/
def initClient (user channel : String) (keepAlive : Nat) : Client :=
  { user := user, channel := channel, keepAlive := keepAlive,
    state := .ICE_NOT_READY }

/-! ## Engine event callbacks (`setup_iceevents`, `setup_transport_events`) -/

/-- The `iceconnectionstatechange` callback registered in `setup_iceevents`:
when `iceConnectionState` reaches `'completed'` the client state is set to
`CONNECTING` (source line 385); any other value only logs. -/
def on_iceconnectionstatechange (c : Client) (iceConnectionState : String) : Client :=
  if iceConnectionState = "completed" then { c with state := .CONNECTING } else c

/-- The dtls-transport `statechange` callback registered in
`setup_transport_events`: when the transport state reaches `'closed'` the
client state is set to `DISCONNECTED`, unconditionally on the prior state. -/
def on_dtlsstatechanged (c : Client) (transportState : String) : Client :=
  if transportState = "closed" then { c with state := .DISCONNECTED } else c

/-! ## `get_wsurl`: signaling-host resolution with probing -/

/-- One gethost/probe iteration of the `while wsurl is None and tried < 10`
loop in `get_wsurl`.  `hosts i` is the host returned by the broker on the
`i`-th call and `probe i` whether the connect-and-close probe of that host
succeeds.  `tried` counts failed probes, which equals the iteration index
because a successful probe leaves the loop. -/
def getWsurlGo (hosts : Nat → String) (probe : Nat → Bool) (token : String)
    (tried : Nat) : Option String :=
  if h : tried < 10 then
    if probe tried then some (hosts tried ++ "/v2/" ++ token)
    else getWsurlGo hosts probe token (tried + 1)
  else none
termination_by 10 - tried
decreasing_by omega

/-- `PeerConnection.get_wsurl` after the token call: `none` models the final
`raise Exception('failed to get a valid host for the signaling')`. -/
def get_wsurl (hosts : Nat → String) (probe : Nat → Bool) (token : String) :
    Option String :=
  getWsurlGo hosts probe token 0

/-! ## Python string primitives -/

/-- Worker for `pySplit`: split a character list at every occurrence of
`sep`, like Python `str.split(sep)` for a one-character separator. -/
def splitCharGo (sep : Char) : List Char → List Char → List (List Char)
  | [], acc => [acc.reverse]
  | ch :: rest, acc =>
    if ch = sep then acc.reverse :: splitCharGo sep rest []
    else splitCharGo sep rest (ch :: acc)

/-- Python `s.split(sep)` for a one-character separator: keeps empty pieces
and returns `['']` on the empty string. -/
def pySplit (sep : Char) (s : String) : List String :=
  (splitCharGo sep s.data []).map String.mk

/-- Join pieces back with a separator (used to model `split(':', 1)`). -/
def joinWith (sep : String) : List String → String
  | [] => ""
  | [x] => x
  | x :: rest => x ++ sep ++ joinWith sep rest

/-- Worker for `pyStrContains`. -/
def strContainsGo (needle : List Char) (hay : List Char) : Bool :=
  match hay with
  | [] => needle.isPrefixOf ([] : List Char)
  | _ :: rest => needle.isPrefixOf hay || strContainsGo needle rest

/-- Python `needle in haystack` for strings: substring containment. -/
def pyStrContains (needle haystack : String) : Bool :=
  strContainsGo needle.data haystack.data

/-! ## Remote command execution (`execute_and_send`) -/

/-- Replacement for one character under `output.replace('\n', '<BR>')`. -/
def nlToBr (ch : Char) : List Char :=
  if ch = '\n' then ['<', 'B', 'R', '>'] else [ch]

/-- `output.replace('\n', '<BR>')`: every newline of the captured output is
replaced by the literal four-character marker. -/
def replaceNewlines (s : String) : String :=
  String.mk (s.data.flatMap nlToBr)

/-- The try-block of `execute_and_send` for a string command.  `checkOutput`
models `subprocess.check_output` composed with the ascii decode: `none`
means some step of the try-block raised, which the bare `except` converts
into the `'can not execute ...'` reply. -/
def executeCommand (checkOutput : List String → Option String) (message : String) :
    String :=
  match checkOutput (pySplit ' ' message) with
  | some out => replaceNewlines out
  | none => "can not execute " ++ message

/-! ## Inbound frames and the message router (`receive_message`) -/

/-- The value found at `data['p']['msg']` when it is a JSON object.  Each
field is `Option` (`none` = key absent); `internal` records the presence of
the `'internal'` key. -/
structure MsgDict where
  type : Option String := none
  sdp : Option String := none
  candidate : Option String := none
  sdpMid : Option String := none
  sdpMLineIndex : Option Nat := none
  internal : Bool := false
  code : Option String := none
deriving DecidableEq, Repr

/-- `data['p']['msg']` is either a JSON object (protocol message) or a bare
string (remote command request). -/
inductive MsgPayload where
  | dict (d : MsgDict)
  | str (s : String)
deriving DecidableEq, Repr

/-- The duck-typed `'type' in msg` check: key presence on a dict, substring
containment on a string. -/
def pyHasType : MsgPayload → Bool
  | .dict d => d.type.isSome
  | .str s => pyStrContains "type" s

/-- An inbound signaling frame as `receive_message` reads it:
`o = data['m']['o']`, `f = data['m']['f']`, `msg = data['p']['msg']`
(`none` = the `p`/`msg` keys are absent and reading them raises). -/
structure Frame where
  o : String
  f : String
  msg : Option MsgPayload := none
deriving DecidableEq, Repr

/-- Python `s.split('/')[-1]` (the peer name at the end of a sender path). -/
def pyLastPathComponent (s : String) : String :=
  (pySplit '/' s).getLastD ""

/-- Python `s.split(':', 1)[1]`: everything after the first colon; raises
`IndexError` when the string holds no colon. -/
def pySplitColonTail (s : String) : Except PyErr String :=
  match pySplit ':' s with
  | [] => .error .indexError
  | [_] => .error .indexError
  | _ :: rest => .ok (joinWith ":" rest)

/-- `RTCSessionDescription(**data['p']['msg'])`: keyword expansion demands a
dict whose keys are exactly `sdp` and `type`; a bare string raises
`TypeError`, a missing key raises `TypeError` (missing required argument),
an extra key raises `TypeError` (unexpected keyword argument). -/
def descFromMsg : MsgPayload → Except PyErr SessionDesc
  | .str _ => .error .typeError
  | .dict d =>
    match d.sdp, d.type with
    | some sdp, some ty =>
      if d.candidate = none ∧ d.sdpMid = none ∧ d.sdpMLineIndex = none ∧
          d.internal = false ∧ d.code = none then
        .ok { sdp := sdp, type := ty }
      else .error .typeError
    | _, _ => .error .typeError

/-- External inputs of one cycle that are not frames: the subprocess
executor used by `execute_and_send` and whether `MediaPlayer(video_file)`
opens (`get_video_stream_track` falls back to `FlagVideoStreamTrack`). -/
structure Env where
  checkOutput : List String → Option String
  playerOk : Bool

/-- `PeerConnection.get_video_stream_track`. -/
def get_video_stream_track (env : Env) : TrackSrc :=
  if env.playerOk then .filePlayer else .flagPattern

/-- The aiortc `createAnswer` (external engine): produces an `answer`
description for the current negotiation. -/
def createAnswer (pc : RTCPeerConnectionM) : SessionDesc :=
  { sdp := "v=0 answer for " ++ toString pc.remoteDescs.length, type := "answer" }

/-- An outbound envelope produced by `send_message`:
`{'t': 'u', 'm': {'f': channel/user, 'o': 'message', 't': target}, 'p': {'msg': payload}}`. -/
inductive OutPayload where
  | text (s : String)
  | desc (d : SessionDesc)
deriving DecidableEq, Repr

/-- See `OutPayload`; `target` is `self._caller`, which can be `None`. -/
structure OutMsg where
  mf : String
  target : Option String
  payload : OutPayload
deriving DecidableEq, Repr

/-- `PeerConnection.execute_and_send`: runs the command (a dict payload
makes `message.split(' ')` raise inside the try-block, which the bare
`except` also converts to the failure reply, formatting the dict), then
sends the reply to `self._caller`.  Never raises. -/
def execute_and_send (env : Env) (c : Client) (message : MsgPayload) :
    Client × OutMsg :=
  let output : String :=
    match message with
    | .str s => executeCommand env.checkOutput s
    | .dict _ => "can not execute <dict>"
  (c, { mf := c.channel ++ "/" ++ c.user, target := c.caller,
        payload := .text output })

/-- `PeerConnection.make_answer`: record the caller, apply the remote
description to `self._pc`, start the recorder, add the local video track,
create and set the local answer, and emit the answer envelope.  Raises
`AttributeError` when `_pc`/`_recorder` were never created. -/
def make_answer (env : Env) (c0 : Client) (data : Frame) :
    Except (PyErr × Client) (Client × List OutMsg) :=
  let peer := pyLastPathComponent data.f
  let c1 : Client := { c0 with caller := some peer }
  match data.msg with
  | none => .error (.keyError, c1)
  | some m =>
    match descFromMsg m with
    | .error e => .error (e, c1)
    | .ok rdesc =>
      match c1.pc, c1.recorder with
      | some pc, some rec =>
        let track := get_video_stream_track env
        let pc2 : RTCPeerConnectionM :=
          { pc with remoteDescs := pc.remoteDescs ++ [rdesc],
                    tracks := pc.tracks ++ [track] }
        let ans := createAnswer pc2
        let pc3 : RTCPeerConnectionM :=
          { pc2 with localDescs := pc2.localDescs ++ [ans] }
        let c2 : Client :=
          { c1 with pc := some pc3,
                    recorder := some { rec with started := true },
                    senderSet := true }
        .ok (c2, [{ mf := c2.channel ++ "/" ++ c2.user, target := c2.caller,
                    payload := .desc ans }])
      | _, _ => .error (.attributeError, c1)

/-- The `candidate` branch of `receive_message` (lines 263-271): decode the
fragment after the first colon, copy `sdpMid`, store the message's
`sdpMLineIndex` under the misspelled attribute `spdMLineIndex`, and add the
candidate to `self._pc` unconditionally. -/
def handleCandidate (c : Client) (d : MsgDict) :
    Except (PyErr × Client) (Client × List OutMsg) :=
  match d.candidate with
  | none => .error (.keyError, c)
  | some candStr =>
    match pySplitColonTail candStr with
    | .error e => .error (e, c)
    | .ok frag =>
      match d.sdpMid with
      | none => .error (.keyError, c)
      | some mid =>
        match d.sdpMLineIndex with
        | none => .error (.keyError, c)
        | some mli =>
          let cand : RTCIceCandidateM :=
            { candidate_from_sdp frag with
                sdpMid := some mid, spdMLineIndex := some mli }
          match c.pc with
          | none => .error (.attributeError, c)
          | some pc =>
            .ok ({ c with
                    pc := some { pc with candidates := pc.candidates ++ [cand] } },
                 [])

/-- The `action` branch of `receive_message` (lines 273-285): reads
`msg['code']` only when the `internal` key is present; only logs. -/
def handleAction (c : Client) (d : MsgDict) :
    Except (PyErr × Client) (Client × List OutMsg) :=
  if d.internal then
    match d.code with
    | none => .error (.keyError, c)
    | some _ => .ok (c, [])
  else .ok (c, [])

/-- `PeerConnection.receive_message` after a frame arrived: route by
`data['m']['o']`, then for `message` frames by the duck-typed `type`
check.  Unknown objectives and unknown sub-types only log. -/
def receive_message (env : Env) (c : Client) (data : Frame) :
    Except (PyErr × Client) (Client × List OutMsg) :=
  if data.o = "peers" then .ok (c, [])
  else if data.o = "peer_connected" then .ok (c, [])
  else if data.o = "peer_removed" then .ok (c, [])
  else if data.o = "message" then
    match data.msg with
    | none => .error (.keyError, c)
    | some msg =>
      if pyHasType msg then
        match msg with
        | .str _ => .error (.typeError, c)
        | .dict d =>
          match d.type with
          | none => .error (.keyError, c)
          | some ty =>
            if ty = "offer" then
              make_answer env { c with state := .ICING } data
            else if ty = "answer" then .ok (c, [])
            else if ty = "candidate" then handleCandidate c d
            else if ty = "action" then handleAction c d
            else .ok (c, [])
      else
        let r := execute_and_send env c msg
        .ok (r.1, [r.2])
  else .ok (c, [])

/-! ## Credential acquisition (`doIce`), cleanup, and the two loops -/

/-- `PeerConnection.doIce`: the getice broker call (`none` = the request
raised or the `'v'` field was missing), then a fresh `RTCPeerConnection`
from the transformed configuration, a fresh `MediaBlackhole` recorder, and
the transition to `ICE_READY`.  The broker call precedes every assignment,
so a failing call leaves the client untouched. -/
def doIce (iceResp : Option (List IceServer)) (c : Client) :
    Except (PyErr × Client) Client :=
  match iceResp with
  | none => .error (.brokerError, c)
  | some servers =>
    .ok { c with
            pc := some { config := generate_rtc_configuration servers },
            recorder := some {},
            pcGen := c.pcGen + 1,
            state := .ICE_READY }

/-- `PeerConnection.close`: `self._recorder.stop()` then `self._pc.close()`;
either attribute being absent raises `AttributeError` (the recorder is
dereferenced first). -/
def closeAll (c : Client) : Except (PyErr × Client) Client :=
  match c.recorder with
  | none => .error (.attributeError, c)
  | some rec =>
    let c1 : Client := { c with recorder := some { rec with stopped := true } }
    match c1.pc with
    | none => .error (.attributeError, c1)
    | some pc => .ok { c1 with pc := some { pc with closed := true } }

/-- `PeerConnection.cleanup`: close, then reset to `ICE_NOT_READY` unless
already `TERMINATED`; returns `True` when it completes. -/
def cleanup (c : Client) : Except (PyErr × Client) (Client × Bool) :=
  match closeAll c with
  | .error e => .error e
  | .ok c1 =>
    if c1.state = .TERMINATED then .ok (c1, true)
    else .ok ({ c1 with state := .ICE_NOT_READY }, true)

/-- One iteration outcome of the inner receive loop of `start_signaling`:
a frame was received, `asyncio.wait_for` timed out (`now` is the wall-clock
reading at the timeout), or `websocket.recv` raised `ConnectionClosed`. -/
inductive SigEvent where
  | frame (f : Frame)
  | timeout (now : Nat)
  | connClosed
deriving DecidableEq, Repr

/-- The inner receive loop of `start_signaling` (lines 197-217), driven by
a finite schedule of iteration outcomes (an exhausted schedule returns the
loop's current client).  `started` is `signaling_started`; on a timeout the
loop breaks when the state is `DISCONNECTED` or when the elapsed time
exceeds the keep-alive interval while the state is `ICE_READY`; on
`ConnectionClosed` the state becomes `TERMINATED` (and the socket is no
longer open). -/
def signalingLoop (env : Env) (started : Nat) (c : Client) (wsOpen : Bool) :
    List SigEvent → Except (PyErr × Client) Client
  | [] => .ok c
  | ev :: evs =>
    if c.state = .TERMINATED ∨ wsOpen = false then .ok c
    else
      match ev with
      | .frame f =>
        match receive_message env c f with
        | .error e => .error e
        | .ok (c1, _) => signalingLoop env started c1 wsOpen evs
      | .timeout now =>
        if c.state = .DISCONNECTED then .ok c
        else if c.keepAlive < now - started ∧ c.state = .ICE_READY then .ok c
        else signalingLoop env started c wsOpen evs
      | .connClosed =>
        signalingLoop env started { c with state := .TERMINATED } false evs

/-- `PeerConnection.start_signaling`: resolve a ws url (a `get_wsurl`
failure propagates), then run the receive loop over the open socket. -/
def start_signaling (env : Env) (wsurlOk : Bool) (started : Nat) (c : Client)
    (events : List SigEvent) : Except (PyErr × Client) Client :=
  if wsurlOk then signalingLoop env started c true events
  else .error (.connectError, c)

/-- The external inputs of one iteration of the outer `run` loop. -/
structure CycleInput where
  iceResp : Option (List IceServer)
  wsurlOk : Bool
  started : Nat
  events : List SigEvent

/-- One iteration of the `while` body of `PeerConnection.run`
(lines 162-185): try `doIce` (when `ICE_NOT_READY`) and `start_signaling`;
any exception is caught and forces `TERMINATED`; the `finally` block runs
`cleanup`, whose own exception propagates out of `run`.  The returned flag
is cleanup's result, checked by `run` (`if not ok: break`). -/
def runCycle (env : Env) (inp : CycleInput) (c : Client) :
    Except (PyErr × Client) (Client × Bool) :=
  let tryRes : Except (PyErr × Client) Client :=
    match (if c.state = .ICE_NOT_READY then doIce inp.iceResp c else .ok c) with
    | .error e => .error e
    | .ok c1 => start_signaling env inp.wsurlOk inp.started c1 inp.events
  let cAfter : Client :=
    match tryRes with
    | .ok c1 => c1
    | .error (_, c1) => { c1 with state := .TERMINATED }
  cleanup cAfter

/-- The outer `while not TERMINATED` loop of `PeerConnection.run`, driven by
a finite schedule of cycle inputs. -/
def runLoop (env : Env) (c : Client) : List CycleInput → Except (PyErr × Client) Client
  | [] => .ok c
  | inp :: rest =>
    if c.state = .TERMINATED then .ok c
    else
      match runCycle env inp c with
      | .error e => .error e
      | .ok (c1, true) => runLoop env c1 rest
      | .ok (c1, false) => .ok c1

/-! ## The minimal variant (`websocket_timeout_test.py`) -/

namespace MinVariant

/-- The minimal variant's `PeerConnection`: only the fields its loop and
cleanup touch (`_pc` again first appears in `doIce`). -/
structure MClient where
  state : PcState
  pcSet : Bool
deriving DecidableEq, Repr

/-- An iteration outcome of the minimal variant's receive loop. -/
inductive MEvent where
  | recvFrame
  | timeout
  | connClosed
deriving DecidableEq, Repr

/-- The inner loop of `keep_signaling` (lines 128-146): received frames are
only logged; a timeout optionally sends an active ping; `ConnectionClosed`
is only logged (no state write) and leaves the socket closed, so the loop
exits through the `websocket.open` guard. -/
def keep_signaling (c : MClient) (wsOpen : Bool) : List MEvent → MClient
  | [] => c
  | ev :: evs =>
    if c.state = .TERMINATED ∨ wsOpen = false then c
    else
      match ev with
      | .recvFrame => keep_signaling c wsOpen evs
      | .timeout => keep_signaling c wsOpen evs
      | .connClosed => keep_signaling c false evs

/-- The minimal variant's `cleanup`: `self._pc.close()` (raising when `_pc`
was never created), then reset to `ICE_NOT_READY` unless `TERMINATED`. -/
def cleanupMin (c : MClient) : Except PyErr (MClient × Bool) :=
  if c.pcSet then
    if c.state = .TERMINATED then .ok (c, true)
    else .ok ({ c with state := .ICE_NOT_READY }, true)
  else .error .attributeError

end MinVariant

/-! ## Concrete example inputs -/

/-- An environment whose executor knows only `echo hi` and whose video file
does not open. -/
def env0 : Env :=
  { checkOutput := fun args => if args = ["echo", "hi"] then some "hi\n" else none,
    playerOk := false }

/-- The broker's getice response used in the examples. -/
def iceResp0 : List IceServer :=
  [{ url := "turn:x", username := some "u", credential := some "c" }]

/-- The client right after `__init__` with a 20-second keep-alive. -/
def cInit0 : Client := initClient "alice" "room" 20

/-- The client right after a successful `doIce` (see `cReady0_doIce`). -/
def cReady0 : Client :=
  { cInit0 with
      pc := some { config := generate_rtc_configuration iceResp0 },
      recorder := some {},
      pcGen := 1,
      state := .ICE_READY }

/-- `cReady0` with the state forced to `CONNECTED`. -/
def cConn0 : Client := { cReady0 with state := .CONNECTED }

/-- `cReady0` with the state forced to `TERMINATED`. -/
def cTerm0 : Client := { cReady0 with state := .TERMINATED }

/-- An inbound offer frame from peer `bob`. -/
def offerF : Frame :=
  { o := "message", f := "room/bob",
    msg := some (.dict { type := some "offer", sdp := some "v=0" }) }

/-- An inbound candidate frame carrying `sdpMid` `"0"` and
`sdpMLineIndex` `0`. -/
def candF : Frame :=
  { o := "message", f := "room/bob",
    msg := some (.dict { type := some "candidate",
                         candidate := some "candidate:foo 1 udp",
                         sdpMid := some "0", sdpMLineIndex := some 0 }) }

/-- The client after `cReady0` handled `offerF` once (see
`C5_counterexample`). -/
def cOffer1 : Client :=
  { cReady0 with
      state := .ICING,
      caller := some "bob",
      senderSet := true,
      recorder := some { started := true },
      pc := some { config := generate_rtc_configuration iceResp0,
                   remoteDescs := [{ sdp := "v=0", type := "offer" }],
                   localDescs := [{ sdp := "v=0 answer for 1", type := "answer" }],
                   tracks := [.flagPattern] } }

/-- The client after `cOffer1` handled `offerF` a second time: the same
peer connection now carries two remote descriptions and two tracks. -/
def cOffer2 : Client :=
  { cOffer1 with
      pc := some { config := generate_rtc_configuration iceResp0,
                   remoteDescs := [{ sdp := "v=0", type := "offer" },
                                   { sdp := "v=0", type := "offer" }],
                   localDescs := [{ sdp := "v=0 answer for 1", type := "answer" },
                                  { sdp := "v=0 answer for 2", type := "answer" }],
                   tracks := [.flagPattern, .flagPattern] } }

/-- A first cycle whose getice broker call raises. -/
def inpFail : CycleInput :=
  { iceResp := none, wsurlOk := true, started := 0, events := [] }

/-- A minimal-variant client after its `doIce`. -/
def mReady0 : MinVariant.MClient := { state := .ICE_READY, pcSet := true }

/-- A frame with an unrecognized objective. -/
def unknownObjF : Frame := { o := "bogus", f := "room/bob" }

/-- A `message` frame with an unrecognized sub-type. -/
def unknownTypeF : Frame :=
  { o := "message", f := "room/bob",
    msg := some (.dict { type := some "weird" }) }

/-- The answer envelope emitted for the first offer. -/
def answerOut1 : OutMsg :=
  { mf := "room/alice", target := some "bob",
    payload := .desc { sdp := "v=0 answer for 1", type := "answer" } }

/-- The answer envelope emitted for the second offer on the same session. -/
def answerOut2 : OutMsg :=
  { mf := "room/alice", target := some "bob",
    payload := .desc { sdp := "v=0 answer for 2", type := "answer" } }

/-- The candidate that `receive_message` adds for `candF`: `sdpMid` copied,
the message's `sdpMLineIndex` stored under the misspelled `spdMLineIndex`,
the real `sdpMLineIndex` left unset. -/
def candAdded : RTCIceCandidateM :=
  { sdpFragment := "foo 1 udp", sdpMid := some "0",
    sdpMLineIndex := none, spdMLineIndex := some 0 }

/-! ## Helper lemmas -/

/-- `cReady0` is exactly what `doIce` produces from `cInit0` on the broker
response `iceResp0`. -/
theorem cReady0_doIce : doIce (some iceResp0) cInit0 = .ok cReady0 := rfl

/-- Once the state is `TERMINATED`, the inner receive loop returns at its
guard without consuming any further event. -/
theorem signalingLoop_terminated (env : Env) (started : Nat) (c : Client)
    (wsOpen : Bool) (evs : List SigEvent) (h : c.state = .TERMINATED) :
    signalingLoop env started c wsOpen evs = .ok c := by
  cases evs with
  | nil => rfl
  | cons ev evs => simp [signalingLoop, h]

/-- Once the websocket is closed, the minimal variant's receive loop returns
at its guard without consuming any further event. -/
theorem keep_signaling_closed (c : MinVariant.MClient) (evs : List MinVariant.MEvent) :
    MinVariant.keep_signaling c false evs = c := by
  cases evs with
  | nil => rfl
  | cons ev evs => simp [MinVariant.keep_signaling]

/-- Once the state is `TERMINATED`, the outer `run` loop returns at its
guard without running any further cycle. -/
theorem runLoop_terminated (env : Env) (c : Client) (inps : List CycleInput)
    (h : c.state = .TERMINATED) : runLoop env c inps = .ok c := by
  cases inps with
  | nil => rfl
  | cons inp inps => simp [runLoop, h]

/-- The newline substitution never leaves a newline in its output. -/
theorem nlToBr_no_newline (l : List Char) : '\n' ∉ l.flatMap nlToBr := by
  induction l with
  | nil => simp
  | cons ch l ih =>
    simp only [List.flatMap_cons, List.mem_append]
    intro hmem
    rcases hmem with hmem | hmem
    · by_cases hch : ch = '\n'
      · simp [nlToBr, hch] at hmem
      · simp [nlToBr, hch] at hmem
        exact hch hmem.symm
    · exact ih hmem

/-- If every probe up to the bound fails, the resolver loop returns
nothing, from any starting value of `tried`. -/
theorem getWsurlGo_exhaust (hosts : Nat → String) (probe : Nat → Bool) (token : String) :
    ∀ n tried, 10 - tried ≤ n → (∀ i, tried ≤ i → i < 10 → probe i = false) →
    getWsurlGo hosts probe token tried = none := by
  intro n
  induction n with
  | zero =>
    intro tried h _
    unfold getWsurlGo
    rw [dif_neg]
    omega
  | succ n ih =>
    intro tried h hall
    unfold getWsurlGo
    by_cases hlt : tried < 10
    · rw [dif_pos hlt, hall tried le_rfl hlt]
      simp only [Bool.false_eq_true, if_false]
      exact ih (tried + 1) (by omega) (fun i h1 h2 => hall i (by omega) h2)
    · rw [dif_neg hlt]

/-- If the first accepting probe is at index `k < 10`, the resolver loop
returns that host's url, from any starting value of `tried ≤ k`. -/
theorem getWsurlGo_success (hosts : Nat → String) (probe : Nat → Bool) (token : String)
    (k : Nat) (hk : k < 10) (hp : probe k = true) :
    ∀ n tried, k - tried ≤ n → tried ≤ k → (∀ i, tried ≤ i → i < k → probe i = false) →
    getWsurlGo hosts probe token tried = some (hosts k ++ "/v2/" ++ token) := by
  intro n
  induction n with
  | zero =>
    intro tried hn htk _
    have hek : tried = k := by omega
    subst hek
    unfold getWsurlGo
    rw [dif_pos (by omega), if_pos hp]
  | succ n ih =>
    intro tried hn htk hall
    by_cases hek : tried = k
    · subst hek
      unfold getWsurlGo
      rw [dif_pos (by omega), if_pos hp]
    · have hlt : tried < k := by omega
      unfold getWsurlGo
      rw [dif_pos (by omega), hall tried le_rfl hlt]
      simp only [Bool.false_eq_true, if_false]
      exact ih (tried + 1) (by omega) (by omega) (fun i h1 h2 => hall i (by omega) h2)

/-- The resolver loop consults no probe or host beyond the first 10. -/
theorem getWsurlGo_congr (hosts hostsB : Nat → String) (probe probeB : Nat → Bool)
    (token : String) (hprobe : ∀ i, i < 10 → probe i = probeB i)
    (hhosts : ∀ i, i < 10 → hosts i = hostsB i) :
    ∀ n tried, 10 - tried ≤ n →
    getWsurlGo hosts probe token tried = getWsurlGo hostsB probeB token tried := by
  intro n
  induction n with
  | zero =>
    intro tried h
    unfold getWsurlGo
    rw [dif_neg (by omega), dif_neg (by omega)]
  | succ n ih =>
    intro tried h
    unfold getWsurlGo
    by_cases hlt : tried < 10
    · rw [dif_pos hlt, dif_pos hlt, hprobe tried hlt, hhosts tried hlt]
      cases hp : probeB tried with
      | false =>
        simp only [Bool.false_eq_true, if_false]
        exact ih (tried + 1) (by omega)
      | true => simp only [if_pos]
    · rw [dif_neg hlt, dif_neg hlt]

/-! ## Claim C7 -/

/-- C7: signaling-host resolution succeeds on the first broker candidate
whose connect-and-close probe accepts, performs at most 10 attempts (the
result never depends on probes or hosts beyond index 9), and when the first
10 probes all fail it fails with a resolution error instead of returning an
endpoint. -/
theorem C7_resolver (hostsA hostsB hostsC hostsD : Nat → String)
    (probeA probeB probeC probeD : Nat → Bool) (token : String) (k : Nat)
    (hA : ∀ i, i < 10 → probeA i = false)
    (hk : k < 10) (hBk : probeB k = true) (hBlt : ∀ i, i < k → probeB i = false)
    (hCD1 : ∀ i, i < 10 → probeC i = probeD i)
    (hCD2 : ∀ i, i < 10 → hostsC i = hostsD i) :
    get_wsurl hostsA probeA token = none ∧
    get_wsurl hostsB probeB token = some (hostsB k ++ "/v2/" ++ token) ∧
    get_wsurl hostsC probeC token = get_wsurl hostsD probeD token := by
  refine ⟨?_, ?_, ?_⟩
  · exact getWsurlGo_exhaust hostsA probeA token 10 0 (by omega)
      (fun i _ h2 => hA i h2)
  · exact getWsurlGo_success hostsB probeB token k hk hBk k 0 (by omega) (by omega)
      (fun i _ h2 => hBlt i h2)
  · exact getWsurlGo_congr hostsC hostsD probeC probeD token hCD1 hCD2 10 0 (by omega)

/-- C7, witness: a run where every probe fails, a run where probe 3 is the
first to accept, and two runs agreeing below the bound. -/
theorem C7_witness :
    get_wsurl (fun _ => "wss://h") (fun _ => false) "tok" = none ∧
    get_wsurl (fun i => toString i) (fun i => i == 3) "tok" =
      some (toString 3 ++ "/v2/" ++ "tok") ∧
    get_wsurl (fun _ => "wss://h") (fun i => i == 3) "tok" =
      get_wsurl (fun _ => "wss://h") (fun i => i == 3) "tok" := by
  have h := C7_resolver (fun _ => "wss://h") (fun i => toString i)
      (fun _ => "wss://h") (fun _ => "wss://h")
      (fun _ => false) (fun i => i == 3) (fun i => i == 3) (fun i => i == 3)
      "tok" 3 (by decide) (by decide) (by decide) (by decide)
      (fun i _ => rfl) (fun i _ => rfl)
  exact ⟨h.1, h.2.1, h.2.2⟩

/-! ## Claim C1 -/

/-- C1, counterexample: with the state `CONNECTED` and elapsed time 100
exceeding the 20-second TTL, the receive-timeout handler does not break out
of the signaling loop — the loop keeps consuming events (here an offer,
driving the state to `ICING`) and never recycles to `ICE_NOT_READY`. -/
theorem C1_counterexample :
    cConn0.state = PcState.CONNECTED ∧
    cConn0.keepAlive < 100 - 0 ∧
    signalingLoop env0 0 cConn0 true [SigEvent.timeout 100, SigEvent.frame offerF] =
      .ok cOffer1 ∧
    cOffer1.state ≠ PcState.ICE_NOT_READY := by
  exact ⟨rfl, by decide, rfl, by decide⟩

/-- C1, amended: a receive timeout whose elapsed time exceeds the TTL
breaks out of the signaling loop only when the state is `ICE_READY`
(CredentialsReady) — then the cycle's cleanup recycles to `ICE_NOT_READY` —
while in `CONNECTED` the same timeout does not break and the loop
continues. -/
theorem C1_ttl_recycle (env : Env) (started now : Nat) (c : Client)
    (rec : RecorderM) (pc : RTCPeerConnectionM) (evs : List SigEvent)
    (hs : c.state = .ICE_READY) (ht : c.keepAlive < now - started)
    (hrec : c.recorder = some rec) (hpc : c.pc = some pc) :
    signalingLoop env started c true (SigEvent.timeout now :: evs) = .ok c ∧
    cleanup c = .ok ({ c with recorder := some { rec with stopped := true },
                              pc := some { pc with closed := true },
                              state := .ICE_NOT_READY }, true) ∧
    (∀ c2 : Client, c2.state = PcState.CONNECTED →
      signalingLoop env started c2 true (SigEvent.timeout now :: evs) =
        signalingLoop env started c2 true evs) := by
  refine ⟨?_, ?_, ?_⟩
  · simp [signalingLoop, hs, ht]
  · simp [cleanup, closeAll, hrec, hpc, hs]
  · intro c2 h2
    simp [signalingLoop, h2]

/-- C1, witness for the amended theorem at concrete inputs. -/
theorem C1_witness :
    signalingLoop env0 0 cReady0 true [SigEvent.timeout 100] = .ok cReady0 ∧
    cleanup cReady0 =
      .ok ({ cReady0 with recorder := some { stopped := true },
                          pc := some { config := generate_rtc_configuration iceResp0,
                                       closed := true },
                          state := .ICE_NOT_READY }, true) ∧
    signalingLoop env0 0 cConn0 true [SigEvent.timeout 100] =
      signalingLoop env0 0 cConn0 true [] := by
  have h := C1_ttl_recycle env0 0 100 cReady0 {}
      { config := generate_rtc_configuration iceResp0 } [] rfl (by decide) rfl rfl
  exact ⟨h.1, h.2.1, h.2.2 cConn0 rfl⟩

/-! ## Claim C3 -/

/-- C3, counterexample: the dtls transport-state callback is an operation
of the client that, fired after termination, overwrites `TERMINATED` with
`DISCONNECTED` — so `TERMINATED` is not absorbing against the engine
callbacks. -/
theorem C3_counterexample :
    cTerm0.state = PcState.TERMINATED ∧
    (on_dtlsstatechanged cTerm0 "closed").state = PcState.DISCONNECTED ∧
    PcState.DISCONNECTED ≠ PcState.TERMINATED :=
  ⟨rfl, rfl, by decide⟩

/-- C3, amended: `TERMINATED` is absorbing for the loop machinery — the
inner receive loop and the outer run loop exit at their guards without
consuming further input once it is set, and cleanup preserves it — but the
unguarded dtls transport callback still overwrites it with `DISCONNECTED`
when it fires afterwards. -/
theorem C3_absorbing (env : Env) (started : Nat) (c : Client) (ws : Bool)
    (evs : List SigEvent) (inps : List CycleInput)
    (rec : RecorderM) (pc : RTCPeerConnectionM)
    (hterm : c.state = .TERMINATED) (hrec : c.recorder = some rec)
    (hpc : c.pc = some pc) :
    signalingLoop env started c ws evs = .ok c ∧
    runLoop env c inps = .ok c ∧
    cleanup c = .ok ({ c with recorder := some { rec with stopped := true },
                              pc := some { pc with closed := true } }, true) ∧
    (on_dtlsstatechanged c "closed").state = PcState.DISCONNECTED := by
  refine ⟨signalingLoop_terminated env started c ws evs hterm,
          runLoop_terminated env c inps hterm, ?_, ?_⟩
  · simp [cleanup, closeAll, hrec, hpc, hterm]
  · simp [on_dtlsstatechanged]

/-- C3, witness for the amended theorem at concrete inputs. -/
theorem C3_witness :
    signalingLoop env0 0 cTerm0 true [SigEvent.frame offerF] = .ok cTerm0 ∧
    runLoop env0 cTerm0 [inpFail] = .ok cTerm0 ∧
    cleanup cTerm0 =
      .ok ({ cTerm0 with recorder := some { stopped := true },
                         pc := some { config := generate_rtc_configuration iceResp0,
                                      closed := true } }, true) ∧
    (on_dtlsstatechanged cTerm0 "closed").state = PcState.DISCONNECTED :=
  C3_absorbing env0 0 cTerm0 true [SigEvent.frame offerF] [inpFail] {}
    { config := generate_rtc_configuration iceResp0 } rfl rfl rfl

/-! ## Claim C4 -/

/-- C4: when the signaling channel reports `ConnectionClosed` during
receive, the full (video) variant sets the state to `TERMINATED` directly —
cleanup then keeps `TERMINATED`, so the cycle is not recycled through
`ICE_NOT_READY` — while the minimal variant only logs the close (no state
write), exits through the closed-socket guard, and its cleanup recycles the
state to `ICE_NOT_READY`. -/
theorem C4_channel_closed (env : Env) (started : Nat) (c : Client)
    (evs : List SigEvent) (rec : RecorderM) (pc : RTCPeerConnectionM)
    (mc : MinVariant.MClient) (mevs : List MinVariant.MEvent)
    (hterm : c.state ≠ .TERMINATED) (hrec : c.recorder = some rec)
    (hpc : c.pc = some pc)
    (hmterm : mc.state ≠ .TERMINATED) (hmpc : mc.pcSet = true) :
    signalingLoop env started c true (SigEvent.connClosed :: evs) =
      .ok { c with state := .TERMINATED } ∧
    cleanup { c with state := .TERMINATED } =
      .ok ({ c with state := .TERMINATED,
                    recorder := some { rec with stopped := true },
                    pc := some { pc with closed := true } }, true) ∧
    MinVariant.keep_signaling mc true (MinVariant.MEvent.connClosed :: mevs) = mc ∧
    MinVariant.cleanupMin mc = .ok ({ mc with state := .ICE_NOT_READY }, true) := by
  refine ⟨?_, ?_, ?_, ?_⟩
  · have h1 : signalingLoop env started c true (SigEvent.connClosed :: evs) =
        signalingLoop env started { c with state := .TERMINATED } false evs := by
      simp [signalingLoop, hterm]
    rw [h1, signalingLoop_terminated env started _ false evs rfl]
  · simp [cleanup, closeAll, hrec, hpc]
  · have h2 : MinVariant.keep_signaling mc true (MinVariant.MEvent.connClosed :: mevs) =
        MinVariant.keep_signaling mc false mevs := by
      simp [MinVariant.keep_signaling, hmterm]
    rw [h2, keep_signaling_closed]
  · simp [MinVariant.cleanupMin, hmpc, hmterm]

/-- C4, witness at concrete inputs for both variants. -/
theorem C4_witness :
    signalingLoop env0 0 cReady0 true [SigEvent.connClosed, SigEvent.frame offerF] =
      .ok { cReady0 with state := .TERMINATED } ∧
    cleanup { cReady0 with state := .TERMINATED } =
      .ok ({ cReady0 with state := .TERMINATED,
                          recorder := some { stopped := true },
                          pc := some { config := generate_rtc_configuration iceResp0,
                                       closed := true } }, true) ∧
    MinVariant.keep_signaling mReady0 true [MinVariant.MEvent.connClosed] = mReady0 ∧
    MinVariant.cleanupMin mReady0 = .ok ({ mReady0 with state := .ICE_NOT_READY }, true) :=
  C4_channel_closed env0 0 cReady0 [SigEvent.frame offerF] {}
    { config := generate_rtc_configuration iceResp0 } mReady0 []
    (by decide) rfl rfl (by decide) rfl

/-! ## Claim C2 -/

/-- C2, counterexample: when the `iceconnectionstatechange` callback sees
`iceConnectionState = 'completed'` on the concrete client `cReady0`, the
state becomes `CONNECTING`, which is not `CONNECTED` — the claimed
transition to `Connected` does not happen. -/
theorem C2_counterexample :
    (on_iceconnectionstatechange cReady0 "completed").state = PcState.CONNECTING ∧
    PcState.CONNECTING ≠ PcState.CONNECTED :=
  ⟨rfl, by decide⟩

/-- C2, amended: when the media engine's connectivity-state callback
reports `iceConnectionState = 'completed'`, the state transitions to
`CONNECTING` (not `CONNECTED`); any other reported value leaves the client
untouched. -/
theorem C2_amended (c : Client) (s : String) :
    (s = "completed" → (on_iceconnectionstatechange c s).state = PcState.CONNECTING) ∧
    (s ≠ "completed" → on_iceconnectionstatechange c s = c) := by
  constructor
  · intro h
    simp [on_iceconnectionstatechange, h]
  · intro h
    simp [on_iceconnectionstatechange, h]

/-- C2, witness for the amended theorem at concrete inputs. -/
theorem C2_witness :
    (on_iceconnectionstatechange cReady0 "completed").state = PcState.CONNECTING ∧
    on_iceconnectionstatechange cReady0 "checking" = cReady0 :=
  ⟨(C2_amended cReady0 "completed").1 rfl,
   (C2_amended cReady0 "checking").2 (by decide)⟩

/-! ## Claim C8 -/

/-- C8: remote command execution returns the captured standard output with
every newline replaced by the literal `<BR>` marker (no newline survives;
`echo hi` yields `hi<BR>`), and on any execution failure it returns the
textual reply `can not execute <command>` instead of propagating a fault. -/
theorem C8_execute (env : Env) (c : Client) (cmd out cmd2 : String)
    (hok : env.checkOutput (pySplit ' ' cmd) = some out)
    (hfail : env.checkOutput (pySplit ' ' cmd2) = none)
    (hecho : env.checkOutput ["echo", "hi"] = some "hi\n") :
    execute_and_send env c (.str cmd) =
      (c, { mf := c.channel ++ "/" ++ c.user, target := c.caller,
            payload := .text (String.mk (out.data.flatMap nlToBr)) }) ∧
    Char.ofNat 10 ∉ (executeCommand env.checkOutput cmd).data ∧
    execute_and_send env c (.str cmd2) =
      (c, { mf := c.channel ++ "/" ++ c.user, target := c.caller,
            payload := .text ("can not execute " ++ cmd2) }) ∧
    executeCommand env.checkOutput "echo hi" = "hi<BR>" := by
  refine ⟨?_, ?_, ?_, ?_⟩
  · simp [execute_and_send, executeCommand, hok, replaceNewlines]
  · simp only [executeCommand, hok, replaceNewlines]
    have h10 : Char.ofNat 10 = '\n' := by decide
    rw [h10]
    exact nlToBr_no_newline out.data
  · simp [execute_and_send, executeCommand, hfail]
  · have hsplit : pySplit ' ' "echo hi" = ["echo", "hi"] := by decide
    simp only [executeCommand, hsplit, hecho]
    decide

/-- C8, witness at the concrete executor `env0`. -/
theorem C8_witness :
    executeCommand env0.checkOutput "echo hi" = "hi<BR>" ∧
    execute_and_send env0 cInit0 (.str "rm -rf") =
      (cInit0, { mf := "room/alice", target := none,
                 payload := .text "can not execute rm -rf" }) := by
  have h := C8_execute env0 cInit0 "echo hi" "hi\n" "rm -rf"
    (by decide) (by decide) (by decide)
  refine ⟨h.2.2.2, h.2.2.1.trans ?_⟩
  decide

/-! ## Claim C10 -/

/-- C10: cleanup is only safe after a successful credential acquisition.
The run loop's `finally` block runs `cleanup` unconditionally, but
`cleanup` dereferences the `_recorder`/`_pc` attributes first assigned in
`doIce`; when the first cycle's getice broker call raises, `cleanup` itself
raises `AttributeError` instead of completing. -/
theorem C10_cleanup_unsafe (env : Env) (user chan : String) (ka : Nat)
    (inp : CycleInput) (hice : inp.iceResp = none) :
    runCycle env inp (initClient user chan ka) =
      .error (.attributeError, { initClient user chan ka with state := .TERMINATED }) := by
  simp [runCycle, doIce, hice, cleanup, closeAll, initClient]

/-- C10, witness: the concrete first cycle `inpFail` against the freshly
initialised client. -/
theorem C10_witness :
    runCycle env0 inpFail cInit0 =
      .error (.attributeError, { cInit0 with state := .TERMINATED }) :=
  C10_cleanup_unsafe env0 "alice" "room" 20 inpFail rfl

/-! ## Router lemmas: no handler ever constructs a peer connection -/

/-- `execute_and_send` leaves the client untouched. -/
theorem execute_and_send_fst (env : Env) (c : Client) (m : MsgPayload) :
    (execute_and_send env c m).1 = c := rfl

/-- `make_answer` never constructs a peer connection: the generation
counter is unchanged on success. -/
theorem make_answer_pcGen (env : Env) (c c' : Client) (f : Frame)
    (outs : List OutMsg) (h : make_answer env c f = .ok (c', outs)) :
    c'.pcGen = c.pcGen := by
  unfold make_answer at h
  split at h
  · exact absurd h (by simp)
  · split at h
    · exact absurd h (by simp)
    · dsimp only at h
      split at h
      · simp only [Except.ok.injEq, Prod.mk.injEq] at h
        rw [← h.1]
      · exact absurd h (by simp)

/-- `handleCandidate` never constructs a peer connection. -/
theorem handleCandidate_pcGen (c c' : Client) (d : MsgDict)
    (outs : List OutMsg) (h : handleCandidate c d = .ok (c', outs)) :
    c'.pcGen = c.pcGen := by
  unfold handleCandidate at h
  split at h
  · exact absurd h (by simp)
  · split at h
    · exact absurd h (by simp)
    · split at h
      · exact absurd h (by simp)
      · split at h
        · exact absurd h (by simp)
        · split at h
          · exact absurd h (by simp)
          · simp only [Except.ok.injEq, Prod.mk.injEq] at h
            rw [← h.1]

/-- `handleAction` never mutates the client. -/
theorem handleAction_self (c c' : Client) (d : MsgDict)
    (outs : List OutMsg) (h : handleAction c d = .ok (c', outs)) :
    c' = c := by
  unfold handleAction at h
  split at h
  · split at h
    · exact absurd h (by simp)
    · simp only [Except.ok.injEq, Prod.mk.injEq] at h
      exact h.1.symm
  · simp only [Except.ok.injEq, Prod.mk.injEq] at h
    exact h.1.symm

/-- The message router never constructs a peer connection: every successful
`receive_message` leaves the generation counter unchanged, so the cycle's
only `RTCPeerConnection` is the one `doIce` built. -/
theorem receive_message_pcGen (env : Env) (c c' : Client) (f : Frame)
    (outs : List OutMsg) (h : receive_message env c f = .ok (c', outs)) :
    c'.pcGen = c.pcGen := by
  unfold receive_message at h
  split at h
  · simp only [Except.ok.injEq, Prod.mk.injEq] at h
    rw [← h.1]
  · split at h
    · simp only [Except.ok.injEq, Prod.mk.injEq] at h
      rw [← h.1]
    · split at h
      · simp only [Except.ok.injEq, Prod.mk.injEq] at h
        rw [← h.1]
      · split at h
        · split at h
          · exact absurd h (by simp)
          · split at h
            · split at h
              · exact absurd h (by simp)
              · split at h
                · exact absurd h (by simp)
                · split at h
                  · exact make_answer_pcGen env { c with state := .ICING } c' f outs h
                  · split at h
                    · simp only [Except.ok.injEq, Prod.mk.injEq] at h
                      rw [← h.1]
                    · split at h
                      · exact handleCandidate_pcGen c c' _ outs h
                      · split at h
                        · rw [handleAction_self c c' _ outs h]
                        · simp only [Except.ok.injEq, Prod.mk.injEq] at h
                          rw [← h.1]
            · simp only [Except.ok.injEq, Prod.mk.injEq] at h
              rw [← h.1, execute_and_send_fst]
        · simp only [Except.ok.injEq, Prod.mk.injEq] at h
          rw [← h.1]

/-! ## Claim C9 -/

/-- C9: a frame whose objective is not one of
peers/peer_connected/peer_removed/message, and a `message` frame whose
sub-type is not one of offer/answer/candidate/action, are logged and
processed without raising, without emitting output, and without mutating
the state or any other field of the client. -/
theorem C9_unknown_frames (env : Env) (c : Client) (f g : Frame)
    (d : MsgDict) (ty : String)
    (hf1 : f.o ≠ "peers") (hf2 : f.o ≠ "peer_connected")
    (hf3 : f.o ≠ "peer_removed") (hf4 : f.o ≠ "message")
    (hg : g.o = "message") (hgm : g.msg = some (.dict d)) (hty : d.type = some ty)
    (h1 : ty ≠ "offer") (h2 : ty ≠ "answer") (h3 : ty ≠ "candidate")
    (h4 : ty ≠ "action") :
    receive_message env c f = .ok (c, []) ∧
    receive_message env c g = .ok (c, []) := by
  constructor
  · simp [receive_message, hf1, hf2, hf3, hf4]
  · simp [receive_message, hg, hgm, pyHasType, hty, h1, h2, h3, h4]

/-- C9, witness at the concrete frames `unknownObjF` and `unknownTypeF`. -/
theorem C9_witness :
    receive_message env0 cReady0 unknownObjF = .ok (cReady0, []) ∧
    receive_message env0 cReady0 unknownTypeF = .ok (cReady0, []) :=
  C9_unknown_frames env0 cReady0 unknownObjF unknownTypeF
    { type := some "weird" } "weird"
    (by decide) (by decide) (by decide) (by decide)
    rfl rfl rfl (by decide) (by decide) (by decide) (by decide)

/-! ## Claim C5 -/

/-- C5, counterexample: a second offer arriving while a session is active
is neither rejected nor does it replace the prior session — `make_answer`
runs again against the same peer connection (same generation counter),
which afterwards carries two remote descriptions and two attached tracks:
the offer was applied on top of the existing session. -/
theorem C5_counterexample :
    receive_message env0 cReady0 offerF = .ok (cOffer1, [answerOut1]) ∧
    receive_message env0 cOffer1 offerF = .ok (cOffer2, [answerOut2]) ∧
    cOffer2.pcGen = cOffer1.pcGen ∧
    cOffer2 ≠ cOffer1 ∧
    (cOffer2.pc.map fun p => p.tracks.length) = some 2 ∧
    (cOffer2.pc.map fun p => p.remoteDescs.length) = some 2 :=
  ⟨rfl, rfl, rfl, by decide, rfl, rfl⟩

/-- C5, amended: exactly one peer connection exists per connection cycle —
the one `doIce` built, since no router handler ever constructs one — but an
offer arriving while that connection already carries a session is applied
on top of it: the remote description and a further track are appended to
the same peer connection, with no rejection and no replacement. -/
theorem C5_second_offer (env : Env) (c : Client) (f : Frame) (s : String)
    (pc : RTCPeerConnectionM) (rec : RecorderM)
    (hpc : c.pc = some pc) (hrec : c.recorder = some rec)
    (ho : f.o = "message")
    (hm : f.msg = some (.dict { type := some "offer", sdp := some s })) :
    receive_message env c f =
      .ok ({ c with state := .ICING,
                    caller := some (pyLastPathComponent f.f),
                    senderSet := true,
                    recorder := some { rec with started := true },
                    pc := some { pc with
                      remoteDescs := pc.remoteDescs ++ [{ sdp := s, type := "offer" }],
                      tracks := pc.tracks ++ [get_video_stream_track env],
                      localDescs := pc.localDescs ++
                        [createAnswer { pc with
                          remoteDescs := pc.remoteDescs ++ [{ sdp := s, type := "offer" }],
                          tracks := pc.tracks ++ [get_video_stream_track env] }] } },
           [{ mf := c.channel ++ "/" ++ c.user,
              target := some (pyLastPathComponent f.f),
              payload := .desc (createAnswer { pc with
                remoteDescs := pc.remoteDescs ++ [{ sdp := s, type := "offer" }],
                tracks := pc.tracks ++ [get_video_stream_track env] }) }]) ∧
    (∀ (c0 c1 : Client) (f0 : Frame) (outs : List OutMsg),
      receive_message env c0 f0 = .ok (c1, outs) → c1.pcGen = c0.pcGen) := by
  constructor
  · simp [receive_message, ho, hm, pyHasType, make_answer, descFromMsg, hpc, hrec]
  · exact fun c0 c1 f0 outs h => receive_message_pcGen env c0 c1 f0 outs h

/-- C5, witness: the amended theorem applied to the second offer on the
concrete client `cOffer1`. -/
theorem C5_witness :
    receive_message env0 cOffer1 offerF = .ok (cOffer2, [answerOut2]) ∧
    cOffer1.pcGen = cReady0.pcGen := by
  have h := C5_second_offer env0 cOffer1 offerF "v=0"
      { config := generate_rtc_configuration iceResp0,
        remoteDescs := [{ sdp := "v=0", type := "offer" }],
        localDescs := [{ sdp := "v=0 answer for 1", type := "answer" }],
        tracks := [.flagPattern] }
      { started := true } rfl rfl rfl rfl
  exact ⟨h.1, h.2 cReady0 cOffer1 offerF [answerOut1] rfl⟩

/-! ## Claim C6 -/

/-- C6, counterexample: `cReady0` has no active media session (no remote
description and no attached track — no offer was handled yet), and still a
`candidate` message is not dropped with no effect: the decoded candidate is
added to the cycle's peer connection. -/
theorem C6_counterexample :
    (cReady0.pc.map fun p => p.remoteDescs) = some [] ∧
    (cReady0.pc.map fun p => p.tracks) = some [] ∧
    receive_message env0 cReady0 candF =
      .ok ({ cReady0 with pc := some { config := generate_rtc_configuration iceResp0,
                                       candidates := [candAdded] } }, []) ∧
    ({ cReady0 with pc := some { config := generate_rtc_configuration iceResp0,
                                 candidates := [candAdded] } } : Client) ≠ cReady0 :=
  ⟨rfl, rfl, rfl, by decide⟩

/-- C6, amended: for every inbound `candidate` message the handler decodes
the fragment after the first colon and adds to the cycle's peer connection
a candidate whose `sdpMid` equals the message's `sdpMid` and whose
`sdpMLineIndex` value is stored under the misspelled attribute
`spdMLineIndex` (the correctly spelled attribute stays unset); the add is
unconditional — it happens even when no negotiated session exists — and a
client without the peer-connection attribute raises `AttributeError`
instead of logging and dropping. -/
theorem C6_candidate (env : Env) (c cNo : Client) (f : Frame) (d : MsgDict)
    (pc : RTCPeerConnectionM) (candStr frag mid : String) (mli : Nat)
    (hpc : c.pc = some pc)
    (ho : f.o = "message") (hm : f.msg = some (.dict d))
    (hty : d.type = some "candidate") (hcand : d.candidate = some candStr)
    (hfrag : pySplitColonTail candStr = .ok frag)
    (hmid : d.sdpMid = some mid) (hmli : d.sdpMLineIndex = some mli)
    (hno : cNo.pc = none) :
    receive_message env c f =
      .ok ({ c with pc := some { pc with candidates := pc.candidates ++
              [{ sdpFragment := frag, sdpMid := some mid,
                 sdpMLineIndex := none, spdMLineIndex := some mli }] } }, []) ∧
    receive_message env cNo f = .error (.attributeError, cNo) := by
  constructor
  · simp [receive_message, ho, hm, pyHasType, hty, handleCandidate, hcand,
      hfrag, hmid, hmli, hpc, candidate_from_sdp]
  · simp [receive_message, ho, hm, pyHasType, hty, handleCandidate, hcand,
      hfrag, hmid, hmli, hno, candidate_from_sdp]

/-- C6, witness: the amended theorem at the concrete frame `candF`, against
`cReady0` (peer connection present) and a client whose `doIce` never ran
(peer connection absent). -/
theorem C6_witness :
    receive_message env0 cReady0 candF =
      .ok ({ cReady0 with pc := some { config := generate_rtc_configuration iceResp0,
                                       candidates := [candAdded] } }, []) ∧
    receive_message env0 { cInit0 with state := PcState.ICE_READY } candF =
      .error (.attributeError, { cInit0 with state := PcState.ICE_READY }) := by
  have h := C6_candidate env0 cReady0 { cInit0 with state := PcState.ICE_READY }
      candF
      { type := some "candidate", candidate := some "candidate:foo 1 udp",
        sdpMid := some "0", sdpMLineIndex := some 0 }
      { config := generate_rtc_configuration iceResp0 }
      "candidate:foo 1 udp" "foo 1 udp" "0" 0
      rfl rfl rfl rfl rfl rfl rfl rfl rfl
  exact ⟨h.1, h.2⟩

end Xirsys

